import Mathlib

/-!
A shallow embedding of `py3status/modules/cmus.py` — the py3status module
that displays the currently playing song in the cmus music player — together
with proofs about its behaviour.

Modelling conventions.

* Python dictionaries are insertion-ordered association lists
  `List (String × α)`; assignment `d[k] = v` is `dictInsert`, which replaces
  the value in place when the key is present and appends otherwise, exactly
  like CPython dicts.
* The `py3` helper object is abstracted by an `Env` record: a
  `command_output` result is an `Option String` whose `none` models the call
  raising; colour constants are `Option String` whose `none` models Python
  `None`; `py3.time_in t` is modelled by recording the duration `t` itself in
  the render result; `py3.safe_format fmt d` is modelled by recording the
  pair `(fmt, d)` unevaluated (the template engine is an external
  collaborator that this module never interprets).
* Python exceptions are the `Except` monad: `PyErr.valueError` for a failing
  `int(...)`, `PyErr.typeError` for a duplicate keyword argument in
  `dict(..., **data)`, `PyErr.commandError` for a raising
  `py3.command_output` call.
* `str.splitlines` is modelled for newline-separated text (the only line
  separator `cmus-remote --query` emits); `int(...)` is modelled on the
  nonnegative decimal literals that every claim exercises (`pyInt`); decimal
  rendering `%d` of a natural number uses a structural-recursion digit
  printer (`natToChars`) so that everything evaluates inside the kernel.
-/

/-- Python values that appear in the snapshot mapping or in the field
bindings handed to the host formatter: `None`, a boolean, or a string. -/
inductive PyVal
  | none
  | bool (b : Bool)
  | str (s : String)
deriving DecidableEq

/-- The Python exceptions this module can raise or propagate. -/
inductive PyErr
  | valueError
  | typeError
  | commandError
deriving DecidableEq

instance {ε α : Type} [DecidableEq ε] [DecidableEq α] : DecidableEq (Except ε α) := fun a b =>
  match a, b with
  | Except.error e1, Except.error e2 =>
    if h : e1 = e2 then isTrue (by rw [h])
    else isFalse (fun hc => Except.noConfusion hc (fun he => absurd he h))
  | Except.ok x, Except.ok y =>
    if h : x = y then isTrue (by rw [h])
    else isFalse (fun hc => Except.noConfusion hc (fun he => absurd he h))
  | Except.error _, Except.ok _ => isFalse (fun hc => Except.noConfusion hc)
  | Except.ok _, Except.error _ => isFalse (fun hc => Except.noConfusion hc)

/-- First-match lookup in an association list, i.e. Python `d.get(k)` for
the insertion-ordered dicts built by `dictInsert` (whose keys are unique). -/
def lookupA {α : Type} : List (String × α) → String → Option α
  | [], _ => Option.none
  | p :: l, k => if p.1 = k then some p.2 else lookupA l k

/-- Python dict assignment `d[k] = v`: replace the value in place when the
key is present, append a new entry otherwise. -/
def dictInsert {α : Type} (d : List (String × α)) (k : String) (v : α) : List (String × α) :=
  if d.any (fun p => p.1 == k) then d.map (fun p => if p.1 = k then (k, v) else p)
  else d ++ [(k, v)]

/-- The value of the LAST pair with key `q` in a write sequence (the
specification-side description of "last occurrence of a duplicate key
wins"). -/
def lastWins {α : Type} (l : List (String × α)) (q : String) : Option α :=
  l.foldl (fun acc p => if p.1 = q then some p.2 else acc) none

/-- Left-biased choice on `Option`, written out so proofs can case on it. -/
def orElseO {α : Type} (a b : Option α) : Option α :=
  match a with
  | some x => some x
  | Option.none => b

/-- Python truthiness-based `a or b` for colour constants (`None` and the
empty string are falsy). -/
def pyOr (a b : Option String) : Option String :=
  match a with
  | some s => if s = "" then b else some s
  | Option.none => b

/-- Python substring test `needle in hay`. -/
def containsSub (needle hay : String) : Bool :=
  hay.data.tails.any (fun t => needle.data.isPrefixOf t)

/-- Python `int(...)` on the nonnegative decimal literals the module feeds
it (the digit strings reported by cmus); any other string is `none`,
modelling the `ValueError` that `int` raises on the malformed inputs the
claims exercise. -/
def pyInt (s : String) : Option Nat :=
  if s.data ≠ [] ∧ s.data.all (fun c => c.isDigit) then
    some (s.data.foldl (fun n c => 10 * n + (c.toNat - 48)) 0)
  else Option.none

/-- One decimal digit as a character (`%d` rendering of a digit). -/
def digitChar (d : Nat) : Char :=
  if d = 0 then '0' else if d = 1 then '1' else if d = 2 then '2' else if d = 3 then '3'
  else if d = 4 then '4' else if d = 5 then '5' else if d = 6 then '6' else if d = 7 then '7'
  else if d = 8 then '8' else if d = 9 then '9' else '*'

/-- Decimal rendering of a natural number, most significant digit first.
The first argument is structural fuel (any value above the number works),
so that the function reduces inside the kernel. -/
def natToCharsAux : Nat → Nat → List Char
  | 0, _ => []
  | fuel + 1, n =>
    if n < 10 then [digitChar n]
    else natToCharsAux fuel (n / 10) ++ [digitChar (n % 10)]

/-- Python `'%d' % n` for a natural number `n`. -/
def natToChars (n : Nat) : List Char :=
  natToCharsAux (n + 1) n

/-- Python `'%02d' % n` for a natural number `n`: pad with one leading zero
below ten, print all digits otherwise. -/
def pad2 (n : Nat) : List Char :=
  if n < 10 then '0' :: natToChars n else natToChars n

/-- `Py3status._seconds_to_time` on a nonnegative number of seconds:
`m, s = divmod(v, 60); h, m = divmod(m, 60)`, render `'%d:%02d:%02d'`,
then `.lstrip('0').lstrip(':')`. -/
def seconds_to_time (v : Nat) : String :=
  String.mk (((natToChars (v / 60 / 60) ++ ':' :: (pad2 (v / 60 % 60) ++ ':' :: pad2 (v % 60))).dropWhile
    (fun c => c == '0')).dropWhile (fun c => c == ':'))

/-- Python `line.partition(' ')` restricted to its first and third
components: the text before the first space, and the text after it (the
whole line and the empty string when there is no space). -/
def partitionSpace : List Char → List Char × List Char
  | [] => ([], [])
  | c :: rest =>
    if c = ' ' then ([], rest)
    else (c :: (partitionSpace rest).1, (partitionSpace rest).2)

/-- Helper for `splitLines`: split on every newline, keeping a (reversed)
accumulator for the current line. -/
def splitLinesAux : List Char → List Char → List (List Char)
  | [], acc => [acc.reverse]
  | c :: rest, acc =>
    if c = '\n' then acc.reverse :: splitLinesAux rest []
    else splitLinesAux rest (c :: acc)

/-- Python `str.splitlines` for newline-separated text: the empty string has
no lines, and a trailing newline does not open a final empty line. -/
def splitLines (l : List Char) : List (List Char) :=
  match l with
  | [] => []
  | _ =>
    if l.getLast? = some '\n' then (splitLinesAux l []).dropLast
    else splitLinesAux l []

/-- The loop body of `Py3status._organize_data`: split a line on the first
space into `(category, value)`; if the category is `set` or `tag`, split the
value again on the first space into the stored `(key, value)` pair, and
otherwise store the value under the category itself. -/
def linePair (line : List Char) : String × String :=
  if String.mk (partitionSpace line).1 = "set" ∨ String.mk (partitionSpace line).1 = "tag" then
    (String.mk (partitionSpace (partitionSpace line).2).1,
     String.mk (partitionSpace (partitionSpace line).2).2)
  else
    (String.mk (partitionSpace line).1, String.mk (partitionSpace line).2)

/-- The `(key, value)` pairs of all lines of a query response, in order. -/
def linePairs (s : String) : List (String × String) :=
  (splitLines s.data).map linePair

/-- `Py3status._organize_data`: fold the per-line pairs into a dict,
starting from the empty dict. -/
def organize_data (s : String) : List (String × String) :=
  (linePairs s).foldl (fun d p => dictInsert d p.1 p.2) []

/-- One iteration of the `Py3status._manipulate_data` loop on entry
`(key, value)`: augment `duration`/`position` with a derived
`<key>time` entry (raising `ValueError` if the value is not an integer
literal), turn the four literal tokens into booleans, and pass everything
else through unchanged. -/
def manipulateEntry (t : List (String × PyVal)) (kv : String × String) :
    Except PyErr (List (String × PyVal)) :=
  if kv.1 = "duration" ∨ kv.1 = "position" then
    match pyInt kv.2 with
    | some n =>
        Except.ok (dictInsert (dictInsert t (kv.1 ++ "time") (PyVal.str (seconds_to_time n)))
          kv.1 (PyVal.str kv.2))
    | Option.none => Except.error PyErr.valueError
  else if kv.2 = "true" ∨ kv.2 = "enabled" then Except.ok (dictInsert t kv.1 (PyVal.bool true))
  else if kv.2 = "false" ∨ kv.2 = "disabled" then Except.ok (dictInsert t kv.1 (PyVal.bool false))
  else Except.ok (dictInsert t kv.1 (PyVal.str kv.2))

/-- The `for key, value in data.items()` loop of `_manipulate_data`. -/
def manipulateLoop : List (String × String) → List (String × PyVal) →
    Except PyErr (List (String × PyVal))
  | [], t => Except.ok t
  | kv :: rest, t =>
    match manipulateEntry t kv with
    | Except.ok t1 => manipulateLoop rest t1
    | Except.error e => Except.error e

/-- The raw out-of-band query `['cmus-remote', '--raw', 'set follow']`. -/
def rawFollowCmd : List String := ["cmus-remote", "--raw", "set follow"]

/-- The `stream` post-pass of `_manipulate_data`: force `stream` to `True`
when the key is present in the (untransformed) input at all. -/
def streamPost (data : List (String × String)) (t0 : List (String × PyVal)) :
    List (String × PyVal) :=
  if data.any (fun p => p.1 == "stream") then dictInsert t0 "stream" (PyVal.bool true) else t0

/-- The rest of `_manipulate_data` after the `stream` post-pass: when the
`use_follow` flag is set, issue the raw `set follow` query and overwrite
`follow` with whether the literal text `true` occurs in the response. -/
def manipulate_data (use_follow : Bool) (followOutput : Option String)
    (data : List (String × String)) :
    Except PyErr (List (String × PyVal) × List (List String)) :=
  match manipulateLoop data [] with
  | Except.error e => Except.error e
  | Except.ok t0 =>
    if use_follow then
      match followOutput with
      | Option.none => Except.error PyErr.commandError
      | some out =>
        if containsSub "true" out then
          Except.ok (dictInsert (streamPost data t0) "follow" (PyVal.bool true), [rawFollowCmd])
        else
          Except.ok (dictInsert (streamPost data t0) "follow" (PyVal.bool false), [rawFollowCmd])
    else Except.ok (streamPost data t0, [])

/-- The world outside the module: whether `cmus-remote` is on the search
path, the four py3 default colour constants, the three optional colour
overrides, and the outputs of the two subprocess queries (`none` = the call
raises). -/
structure Env where
  check_cmus_remote : Bool
  COLOR_BAD : Option String
  COLOR_DEGRADED : Option String
  COLOR_GOOD : Option String
  COLOR_STOPPED : Option String
  COLOR_PAUSED : Option String
  COLOR_PLAYING : Option String
  queryOutput : Option String
  followOutput : Option String

/-- The configuration parameters of the module, with the source defaults. -/
structure Config where
  button_next : Option Int := Option.none
  button_pause : Option Int := some 1
  button_previous : Option Int := Option.none
  button_repeat : Option Int := Option.none
  button_seek_backward : Option Int := Option.none
  button_seek_forward : Option Int := Option.none
  button_shuffle : Option Int := Option.none
  button_stop : Option Int := some 3
  button_volume_down : Option Int := Option.none
  button_volume_up : Option Int := Option.none
  cache_timeout : Nat := 5
  format : String := "[\\?if=is_started [\\?if=is_playing > ][\\?if=is_paused \\|\\| ][\\?if=is_stopped .. ][[{artist}][\\?soft  - ][{title}]|\\?show cmus: waiting for user input]]"
  sleep_timeout : Nat := 20

/-- The configuration with all source defaults. -/
def defaultConfig : Config := {}

/-- The state held on `self` after `post_config_hook` ran: the raw
configuration plus the three resolved colours and the precomputed
`use_follow` flag. -/
structure ConfigState where
  button_next : Option Int
  button_pause : Option Int
  button_previous : Option Int
  button_repeat : Option Int
  button_seek_backward : Option Int
  button_seek_forward : Option Int
  button_shuffle : Option Int
  button_stop : Option Int
  button_volume_down : Option Int
  button_volume_up : Option Int
  cache_timeout : Nat
  format : String
  sleep_timeout : Nat
  color_stopped : Option String
  color_paused : Option String
  color_playing : Option String
  use_follow : Bool
deriving DecidableEq

/-- The message of the exception raised when `cmus-remote` is missing. -/
def STRING_NOT_INSTALLED : String := "isn\x27t installed"

/-- The three literal patterns whose presence in the format string enables
the out-of-band `follow` query. -/
def format_contains : List String := ["if=follow", "if=!follow", "{follow}"]

/-- The `use_follow` computation of `post_config_hook`: start from `False`
and set the flag whenever one of the three patterns occurs in the format. -/
def computeUseFollow (format : String) : Bool :=
  format_contains.foldl (fun flag i => if containsSub i format then true else flag) false

/-- `Py3status.post_config_hook`: raise when `cmus-remote` is not found,
otherwise resolve the three colours against their defaults and precompute
the `use_follow` flag. -/
def post_config_hook (cfg : Config) (env : Env) : Except String ConfigState :=
  if env.check_cmus_remote = false then Except.error STRING_NOT_INSTALLED
  else Except.ok
    { button_next := cfg.button_next
      button_pause := cfg.button_pause
      button_previous := cfg.button_previous
      button_repeat := cfg.button_repeat
      button_seek_backward := cfg.button_seek_backward
      button_seek_forward := cfg.button_seek_forward
      button_shuffle := cfg.button_shuffle
      button_stop := cfg.button_stop
      button_volume_down := cfg.button_volume_down
      button_volume_up := cfg.button_volume_up
      cache_timeout := cfg.cache_timeout
      format := cfg.format
      sleep_timeout := cfg.sleep_timeout
      color_stopped := pyOr env.COLOR_STOPPED env.COLOR_BAD
      color_paused := pyOr env.COLOR_PAUSED env.COLOR_DEGRADED
      color_playing := pyOr env.COLOR_PLAYING env.COLOR_GOOD
      use_follow := computeUseFollow cfg.format }

/-- `Py3status._get_cmus_data`: `(True, raw)` when the query succeeds,
`(False, "")` when it raises (the empty string stands for the unused `{}`
sentinel of the source, which is only ever passed on when the first
component is `True`). -/
def get_cmus_data (env : Env) : Bool × String :=
  match env.queryOutput with
  | some out => (true, out)
  | Option.none => (false, "")

/-- The keyword-argument keys of the `dict(...)` call in `cmus`. -/
def reservedKeys : List String := ["is_paused", "is_playing", "is_started", "is_stopped"]

/-- The four keyword arguments of the `dict(...)` call, in source order. -/
def fourBools (p pl st sp : PyVal) : List (String × PyVal) :=
  [("is_paused", p), ("is_playing", pl), ("is_started", st), ("is_stopped", sp)]

/-- `dict(is_paused=…, is_playing=…, is_started=…, is_stopped=…, **data)`:
raises `TypeError` when `data` holds one of the four keyword keys, and
otherwise prepends the four bindings to the snapshot entries. -/
def makeBindings (p pl st sp : PyVal) (data : List (String × PyVal)) :
    Except PyErr (List (String × PyVal)) :=
  if data.any (fun e => reservedKeys.contains e.1) then Except.error PyErr.typeError
  else Except.ok (fourBools p pl st sp ++ data)

/-- `data.get('status')`. -/
def statusOf (data : List (String × PyVal)) : Option PyVal :=
  lookupA data "status"

/-- The `is_playing` value derived from the snapshot (`True` exactly when
`status == 'playing'`, `None` otherwise). -/
def playingVal (data : List (String × PyVal)) : PyVal :=
  if statusOf data = some (PyVal.str "playing") then PyVal.bool true else PyVal.none

/-- The `is_paused` value derived from the snapshot. -/
def pausedVal (data : List (String × PyVal)) : PyVal :=
  if statusOf data = some (PyVal.str "paused") then PyVal.bool true else PyVal.none

/-- The `is_stopped` value derived from the snapshot. -/
def stoppedVal (data : List (String × PyVal)) : PyVal :=
  if statusOf data = some (PyVal.str "stopped") then PyVal.bool true else PyVal.none

/-- The colour chosen by the started branch of `cmus`: the resolved colour
of the recognized status, and the `COLOR_BAD` initial value when the status
is missing or unrecognized. -/
def statusColor (st : ConfigState) (env : Env) (data : List (String × PyVal)) : Option String :=
  if statusOf data = some (PyVal.str "playing") then st.color_playing
  else if statusOf data = some (PyVal.str "paused") then st.color_paused
  else if statusOf data = some (PyVal.str "stopped") then st.color_stopped
  else env.COLOR_BAD

/-- The render request returned by `cmus`: the duration handed to
`py3.time_in`, the chosen colour, and the `(format, bindings)` pair handed
to `py3.safe_format`. -/
structure RenderResult where
  cached_until : Nat
  color : Option String
  format : String
  bindings : List (String × PyVal)
deriving DecidableEq

/-- The poll entry point `Py3status.cmus`: fetch, and when started parse and
transform the snapshot, derive the three status booleans and the colour, and
build the field bindings; when not started, report `is_started=False` with
the bad colour and the longer sleep interval. -/
def cmus (st : ConfigState) (env : Env) : Except PyErr RenderResult :=
  if (get_cmus_data env).1 then
    match manipulate_data st.use_follow env.followOutput (organize_data (get_cmus_data env).2) with
    | Except.error e => Except.error e
    | Except.ok (data, _qs) =>
      match makeBindings (pausedVal data) (playingVal data) (PyVal.bool true) (stoppedVal data)
          data with
      | Except.error e => Except.error e
      | Except.ok bs => Except.ok ⟨st.cache_timeout, statusColor st env data, st.format, bs⟩
  else
    match makeBindings PyVal.none PyVal.none (PyVal.bool false) PyVal.none [] with
    | Except.error e => Except.error e
    | Except.ok bs => Except.ok ⟨st.sleep_timeout, env.COLOR_BAD, st.format, bs⟩

/-- The click entry point `Py3status.on_click`: compare the clicked button
against the ten bindings in source order; the result is the list of external
commands run (always none or one) and whether `py3.prevent_refresh()` was
called. -/
def on_click (st : ConfigState) (button : Int) : List String × Bool :=
  if st.button_pause == some button then (["cmus-remote --pause"], false)
  else if st.button_stop == some button then (["cmus-remote --stop"], false)
  else if st.button_next == some button then (["cmus-remote --next"], false)
  else if st.button_previous == some button then (["cmus-remote --prev"], false)
  else if st.button_repeat == some button then (["cmus-remote --repeat"], false)
  else if st.button_shuffle == some button then (["cmus-remote --shuffle"], false)
  else if st.button_seek_backward == some button then (["cmus-remote --seek -5"], false)
  else if st.button_seek_forward == some button then (["cmus-remote --seek +5"], false)
  else if st.button_volume_down == some button then (["cmus-remote --vol -5%"], false)
  else if st.button_volume_up == some button then (["cmus-remote --vol +5%"], false)
  else ([], true)

/-- The button-to-command table in its fixed priority order, used to state
that `on_click` is a first-match lookup. -/
def clickTable (st : ConfigState) : List (Option Int × String) :=
  [(st.button_pause, "cmus-remote --pause"), (st.button_stop, "cmus-remote --stop"),
   (st.button_next, "cmus-remote --next"), (st.button_previous, "cmus-remote --prev"),
   (st.button_repeat, "cmus-remote --repeat"), (st.button_shuffle, "cmus-remote --shuffle"),
   (st.button_seek_backward, "cmus-remote --seek -5"),
   (st.button_seek_forward, "cmus-remote --seek +5"),
   (st.button_volume_down, "cmus-remote --vol -5%"),
   (st.button_volume_up, "cmus-remote --vol +5%")]

/-- The per-entry write sequence of the `_manipulate_data` loop, used to
state its last-write-wins behaviour. -/
def entryWrites (kv : String × String) : List (String × PyVal) :=
  if kv.1 = "duration" ∨ kv.1 = "position" then
    [(kv.1 ++ "time", PyVal.str (seconds_to_time ((pyInt kv.2).getD 0))),
     (kv.1, PyVal.str kv.2)]
  else if kv.2 = "true" ∨ kv.2 = "enabled" then [(kv.1, PyVal.bool true)]
  else if kv.2 = "false" ∨ kv.2 = "disabled" then [(kv.1, PyVal.bool false)]
  else [(kv.1, PyVal.str kv.2)]

/-- All writes of the `_manipulate_data` loop, in order. -/
def flatWrites : List (String × String) → List (String × PyVal)
  | [] => []
  | kv :: rest => entryWrites kv ++ flatWrites rest

/-- The value the transformer stores under an input key, as the claim
describes it: `duration`/`position` values are retained as strings, the four
literal tokens become booleans, and everything else passes through. -/
def mainVal (k v : String) : PyVal :=
  if k = "duration" ∨ k = "position" then PyVal.str v
  else if v = "true" ∨ v = "enabled" then PyVal.bool true
  else if v = "false" ∨ v = "disabled" then PyVal.bool false
  else PyVal.str v

/-- A resolved configuration used by the concrete scenarios below. -/
def stA : ConfigState :=
  { button_next := Option.none, button_pause := some 1, button_previous := Option.none
    button_repeat := Option.none, button_seek_backward := Option.none
    button_seek_forward := Option.none, button_shuffle := Option.none, button_stop := some 3
    button_volume_down := Option.none, button_volume_up := Option.none
    cache_timeout := 5, format := "fmt", sleep_timeout := 20
    color_stopped := some "#FF0000", color_paused := some "#FFFF00"
    color_playing := some "#00FF00", use_follow := false }

/-- An environment in which the query raises (cmus not running). -/
def envDown : Env :=
  { check_cmus_remote := true, COLOR_BAD := some "#FF0000", COLOR_DEGRADED := some "#FFFF00"
    COLOR_GOOD := some "#00FF00", COLOR_STOPPED := Option.none, COLOR_PAUSED := Option.none
    COLOR_PLAYING := Option.none, queryOutput := Option.none, followOutput := Option.none }

/-- An environment whose query reports an unrecognized status token. -/
def envGarbage : Env := { envDown with queryOutput := some "status garbage" }

/-- An environment whose query reports a playing track. -/
def envPlaying : Env := { envDown with queryOutput := some "status playing\nset artist Foo" }

/-- An environment whose query reports a snapshot key that collides with a
keyword argument of the `dict(...)` call. -/
def envReserved : Env := { envDown with queryOutput := some "set is_paused x" }

/-- An environment in which `cmus-remote` is not installed. -/
def envNoCmus : Env := { envDown with check_cmus_remote := false }

/-- The transformed snapshot of `envGarbage`. -/
def dataGarbage : List (String × PyVal) := [("status", PyVal.str "garbage")]

/-- The render result of `cmus stA envGarbage`. -/
def rGarbage : RenderResult :=
  ⟨5, some "#FF0000", "fmt",
   [("is_paused", PyVal.none), ("is_playing", PyVal.none), ("is_started", PyVal.bool true),
    ("is_stopped", PyVal.none), ("status", PyVal.str "garbage")]⟩

/-- The transformed snapshot of `envPlaying`. -/
def dataPlaying : List (String × PyVal) := [("status", PyVal.str "playing"), ("artist", PyVal.str "Foo")]

/-- The render result of `cmus stA envPlaying`. -/
def rPlaying : RenderResult :=
  ⟨5, some "#00FF00", "fmt",
   [("is_paused", PyVal.none), ("is_playing", PyVal.bool true), ("is_started", PyVal.bool true),
    ("is_stopped", PyVal.none), ("status", PyVal.str "playing"), ("artist", PyVal.str "Foo")]⟩

/-- The render result of `cmus stA envDown`. -/
def rDown : RenderResult :=
  ⟨20, some "#FF0000", "fmt",
   [("is_paused", PyVal.none), ("is_playing", PyVal.none), ("is_started", PyVal.bool false),
    ("is_stopped", PyVal.none)]⟩

/-- A concrete parser input for the transformer scenarios. -/
def dataW : List (String × String) := [("shuffle", "enabled"), ("duration", "171"), ("stream", "x")]

/-- The transformer output on `dataW`. -/
def tW : List (String × PyVal) :=
  [("shuffle", PyVal.bool true), ("durationtime", PyVal.str "02:51"),
   ("duration", PyVal.str "171"), ("stream", PyVal.bool true)]

/-- The transformer output on `dataW` with the follow flag set and the raw
query answering `"true"`. -/
def tWF : List (String × PyVal) :=
  [("shuffle", PyVal.bool true), ("durationtime", PyVal.str "02:51"),
   ("duration", PyVal.str "171"), ("stream", PyVal.bool true), ("follow", PyVal.bool true)]

/-! ### Generic lemmas about the dict and option operations -/

theorem orElseO_none_right {α : Type} (a : Option α) : orElseO a Option.none = a := by
  cases a <;> rfl

theorem orElseO_assoc {α : Type} (a b c : Option α) :
    orElseO (orElseO a b) c = orElseO a (orElseO b c) := by
  cases a <;> rfl

theorem lookupA_append {α : Type} (l1 l2 : List (String × α)) (q : String) :
    lookupA (l1 ++ l2) q = orElseO (lookupA l1 q) (lookupA l2 q) := by
  induction l1 with
  | nil => rfl
  | cons p l ih =>
    by_cases h : p.1 = q
    · simp [lookupA, h, orElseO]
    · simp [lookupA, h, ih]

theorem lookupA_eq_none {α : Type} (d : List (String × α)) (k : String)
    (h : ∀ p ∈ d, p.1 ≠ k) : lookupA d k = Option.none := by
  induction d with
  | nil => rfl
  | cons a l ih =>
    have ha := h a (List.mem_cons_self a l)
    simp only [lookupA, if_neg ha]
    exact ih (fun p hp => h p (List.mem_cons_of_mem a hp))

theorem any_key_iff {α : Type} (d : List (String × α)) (k : String) :
    d.any (fun p => p.1 == k) = true ↔ ∃ p ∈ d, p.1 = k := by
  simp [List.any_eq_true, beq_iff_eq]

theorem lookupA_map_replace_self {α : Type} (k : String) (v : α) :
    ∀ d : List (String × α), (∃ p ∈ d, p.1 = k) →
      lookupA (d.map (fun p => if p.1 = k then (k, v) else p)) k = some v := by
  intro d
  induction d with
  | nil => rintro ⟨p, hp, _⟩; cases hp
  | cons a l ih =>
    rintro ⟨p, hp, hpk⟩
    by_cases ha : a.1 = k
    · simp [lookupA, ha]
    · rcases List.mem_cons.mp hp with rfl | hl
      · exact absurd hpk ha
      · simp only [List.map_cons, if_neg ha, lookupA, ha, ite_false]
        exact ih ⟨p, hl, hpk⟩

theorem lookupA_map_replace_ne {α : Type} (k : String) (v : α) (q : String) (hq : q ≠ k) :
    ∀ d : List (String × α),
      lookupA (d.map (fun p => if p.1 = k then (k, v) else p)) q = lookupA d q := by
  intro d
  induction d with
  | nil => rfl
  | cons a l ih =>
    by_cases ha : a.1 = k
    · have hkq : ¬ (k = q) := fun hc => hq hc.symm
      have haq : ¬ (a.1 = q) := by rw [ha]; exact hkq
      simp only [List.map_cons, if_pos ha, lookupA, if_neg hkq, if_neg haq]
      exact ih
    · simp only [List.map_cons, if_neg ha, lookupA]
      by_cases haq : a.1 = q
      · simp [haq]
      · simp only [if_neg haq]; exact ih

theorem lookupA_dictInsert {α : Type} (d : List (String × α)) (k : String) (v : α) (q : String) :
    lookupA (dictInsert d k v) q = if k = q then some v else lookupA d q := by
  unfold dictInsert
  by_cases hmem : d.any (fun p => p.1 == k) = true
  · rw [if_pos hmem]
    by_cases hq : k = q
    · subst hq
      rw [if_pos rfl]
      exact lookupA_map_replace_self k v d ((any_key_iff d k).mp hmem)
    · rw [if_neg hq]
      exact lookupA_map_replace_ne k v q (fun hc => hq hc.symm) d
  · rw [if_neg hmem, lookupA_append]
    by_cases hq : k = q
    · subst hq
      have hnone : lookupA d k = Option.none :=
        lookupA_eq_none d k (fun p hp hk => hmem ((any_key_iff d k).mpr ⟨p, hp, hk⟩))
      rw [hnone]
      simp [lookupA, orElseO]
    · simp only [lookupA, if_neg hq]
      exact orElseO_none_right _

theorem map_fst_replace {α : Type} (k : String) (v : α) :
    ∀ d : List (String × α),
      (d.map (fun p => if p.1 = k then (k, v) else p)).map Prod.fst = d.map Prod.fst := by
  intro d
  induction d with
  | nil => rfl
  | cons a l ih =>
    by_cases ha : a.1 = k
    · simp [ha, ih]
    · simp [ha, ih]

theorem nodup_keys_dictInsert {α : Type} (d : List (String × α)) (k : String) (v : α)
    (h : (d.map Prod.fst).Nodup) : ((dictInsert d k v).map Prod.fst).Nodup := by
  unfold dictInsert
  by_cases hmem : d.any (fun p => p.1 == k) = true
  · rw [if_pos hmem, map_fst_replace]; exact h
  · rw [if_neg hmem]
    have hk : k ∉ d.map Prod.fst := by
      intro hkm
      rcases List.mem_map.mp hkm with ⟨p, hp, hpk⟩
      exact hmem ((any_key_iff d k).mpr ⟨p, hp, hpk⟩)
    rw [List.map_append]
    refine List.Nodup.append h (List.nodup_singleton k) ?_
    intro a ha hb
    rw [List.mem_singleton.mp hb] at ha
    exact hk ha

theorem nodup_keys_foldl {α : Type} (pairs : List (String × α)) :
    ∀ d : List (String × α), (d.map Prod.fst).Nodup →
      ((pairs.foldl (fun d p => dictInsert d p.1 p.2) d).map Prod.fst).Nodup := by
  induction pairs with
  | nil => intro d h; exact h
  | cons p rest ih =>
    intro d h
    exact ih _ (nodup_keys_dictInsert d p.1 p.2 h)

theorem lastWins_foldl_acc {α : Type} (q : String) :
    ∀ (l : List (String × α)) (acc : Option α),
      l.foldl (fun acc p => if p.1 = q then some p.2 else acc) acc =
        orElseO (lastWins l q) acc := by
  intro l
  induction l with
  | nil => intro acc; rfl
  | cons p rest ih =>
    intro acc
    show rest.foldl _ (if p.1 = q then some p.2 else acc) = _
    rw [ih]
    have hr : lastWins (p :: rest) q =
        rest.foldl (fun acc p => if p.1 = q then some p.2 else acc)
          (if p.1 = q then some p.2 else Option.none) := rfl
    rw [hr, ih, orElseO_assoc]
    by_cases h : p.1 = q <;> simp [h, orElseO]

theorem lastWins_cons {α : Type} (p : String × α) (l : List (String × α)) (q : String) :
    lastWins (p :: l) q =
      orElseO (lastWins l q) (if p.1 = q then some p.2 else Option.none) := by
  show l.foldl _ (if p.1 = q then some p.2 else Option.none) = _
  exact lastWins_foldl_acc q l _

theorem lastWins_append {α : Type} (l1 l2 : List (String × α)) (q : String) :
    lastWins (l1 ++ l2) q = orElseO (lastWins l2 q) (lastWins l1 q) := by
  show (l1 ++ l2).foldl _ Option.none = _
  rw [List.foldl_append]
  exact lastWins_foldl_acc q l2 _

theorem lastWins_eq_none {α : Type} (l : List (String × α)) (q : String)
    (h : ∀ p ∈ l, p.1 ≠ q) : lastWins l q = Option.none := by
  induction l with
  | nil => rfl
  | cons p rest ih =>
    rw [lastWins_cons, ih (fun x hx => h x (List.mem_cons_of_mem p hx))]
    simp [h p (List.mem_cons_self p rest), orElseO]

theorem lookupA_foldl_dictInsert {α : Type} (q : String) :
    ∀ (ws : List (String × α)) (t0 : List (String × α)),
      lookupA (ws.foldl (fun d p => dictInsert d p.1 p.2) t0) q =
        orElseO (lastWins ws q) (lookupA t0 q) := by
  intro ws
  induction ws with
  | nil => intro t0; rfl
  | cons p rest ih =>
    intro t0
    rw [List.foldl_cons, ih, lookupA_dictInsert, lastWins_cons, orElseO_assoc]
    by_cases h : p.1 = q <;> simp [h, orElseO]

/-! ### Lemmas about decimal rendering and `seconds_to_time` -/

theorem digitChar_ne_colon (d : Nat) : digitChar d ≠ ':' := by
  unfold digitChar
  split_ifs <;> decide

theorem digitChar_ne_zero {d : Nat} (h : 0 < d) : digitChar d ≠ '0' := by
  unfold digitChar
  split_ifs <;> first | decide | (exfalso; omega)

theorem natToCharsAux_head : ∀ fuel n : Nat, n < fuel →
    ∃ c cs, natToCharsAux fuel n = c :: cs ∧ c ≠ ':' ∧ (0 < n → c ≠ '0') := by
  intro fuel
  induction fuel with
  | zero => intro n hn; exact absurd hn (by omega)
  | succ f ih =>
    intro n hn
    by_cases h10 : n < 10
    · refine ⟨digitChar n, [], ?_, digitChar_ne_colon n, fun hp => digitChar_ne_zero hp⟩
      simp [natToCharsAux, h10]
    · have h1 : n / 10 < f := by
        have h2 : n / 10 < n := Nat.div_lt_self (by omega) (by omega)
        omega
      rcases ih (n / 10) h1 with ⟨c, cs, heq, hc, hz⟩
      refine ⟨c, cs ++ [digitChar (n % 10)], ?_, hc, fun _ => hz (by omega)⟩
      simp [natToCharsAux, h10, heq]

theorem natToChars_head (n : Nat) :
    ∃ c cs, natToChars n = c :: cs ∧ c ≠ ':' ∧ (0 < n → c ≠ '0') :=
  natToCharsAux_head (n + 1) n (Nat.lt_succ_self n)

theorem natToCharsAux_small (fuel n : Nat) (hfn : n < fuel) (h : n < 10) :
    natToCharsAux fuel n = [digitChar n] := by
  cases fuel with
  | zero => exact absurd hfn (by omega)
  | succ f => simp [natToCharsAux, h]

theorem natToChars_length_two {n : Nat} (h1 : 10 ≤ n) (h2 : n < 100) :
    (natToChars n).length = 2 := by
  unfold natToChars
  rw [natToCharsAux, if_neg (by omega)]
  rw [natToCharsAux_small n (n / 10) (by omega) (by omega)]
  rfl

theorem pad2_length {n : Nat} (h : n < 100) : (pad2 n).length = 2 := by
  unfold pad2
  by_cases h10 : n < 10
  · rw [if_pos h10]
    simp [natToChars, natToCharsAux_small (n + 1) n (Nat.lt_succ_self n) h10]
  · rw [if_neg h10]
    exact natToChars_length_two (by omega) h

theorem pad2_head (n : Nat) : ∃ c cs, pad2 n = c :: cs ∧ c ≠ ':' := by
  unfold pad2
  by_cases h10 : n < 10
  · exact ⟨'0', natToChars n, by rw [if_pos h10], by decide⟩
  · rcases natToChars_head n with ⟨c, cs, heq, hc, _⟩
    exact ⟨c, cs, by rw [if_neg h10, heq], hc⟩

theorem dropWhile_ne_head (p : Char → Bool) (c : Char) (h : p c = false) (t : List Char) :
    List.dropWhile p (c :: t) = c :: t := by
  rw [List.dropWhile_cons, h]
  simp

theorem data_mk (l : List Char) : (String.mk l).data = l := rfl

theorem dropWhile_zero_zc (t : List Char) :
    List.dropWhile (fun c => c == '0') ('0' :: ':' :: t) = ':' :: t := rfl

theorem dropWhile_colon_colon (c : Char) (t : List Char) (h : (c == ':') = false) :
    List.dropWhile (fun x => x == ':') (':' :: c :: t) = c :: t := by
  have e : List.dropWhile (fun x => x == ':') (':' :: c :: t) =
      List.dropWhile (fun x => x == ':') (c :: t) := rfl
  rw [e]
  exact dropWhile_ne_head _ c h t

/-- C1 (amended): for every nonnegative `v`, `_seconds_to_time v` is
`MM:SS` (two two-digit zero-padded fields) when `v < 3600` and `H:MM:SS`
with no leading zero on the hour when `v ≥ 3600`; in particular 171 maps to
`"02:51"` (not `"2:51"`), 3661 maps to `"1:01:01"`, and 0 maps to `"00:00"`
(not `"0:00"`). -/
theorem seconds_to_time_spec (v : Nat) :
    (v < 3600 → (seconds_to_time v).data = pad2 (v / 60) ++ ':' :: pad2 (v % 60) ∧
      (pad2 (v / 60)).length = 2 ∧ (pad2 (v % 60)).length = 2) ∧
    (3600 ≤ v → (seconds_to_time v).data =
        natToChars (v / 3600) ++ ':' :: (pad2 (v / 60 % 60) ++ ':' :: pad2 (v % 60)) ∧
      (natToChars (v / 3600)).head? ≠ some '0') ∧
    (seconds_to_time 171 = "02:51" ∧ seconds_to_time 3661 = "1:01:01" ∧
      seconds_to_time 0 = "00:00") := by
  refine ⟨?_, ?_, by decide, by decide, by decide⟩
  · intro hv
    have hm : v / 60 < 60 := by omega
    have h0 : v / 60 / 60 = 0 := Nat.div_eq_of_lt hm
    have hm2 : v / 60 % 60 = v / 60 := Nat.mod_eq_of_lt hm
    refine ⟨?_, pad2_length (by omega), pad2_length (by omega)⟩
    unfold seconds_to_time
    rw [data_mk, h0, hm2]
    have hz : natToChars 0 = ['0'] := rfl
    rw [hz]
    rcases pad2_head (v / 60) with ⟨c, cs, hpc, hcc⟩
    have hcb : (c == ':') = false := beq_eq_false_iff_ne.mpr hcc
    simp only [List.cons_append, List.nil_append]
    rw [dropWhile_zero_zc, hpc]
    simp only [List.cons_append]
    rw [dropWhile_colon_colon c _ hcb]
  · intro hv
    have h1 : 0 < v / 3600 := by omega
    have hdd : v / 60 / 60 = v / 3600 := by
      rw [Nat.div_div_eq_div_mul]
    rcases natToChars_head (v / 3600) with ⟨c, cs, heq, hcolon, hzero⟩
    have hz0 : c ≠ '0' := hzero h1
    have hb0 : (c == '0') = false := beq_eq_false_iff_ne.mpr hz0
    have hbc : (c == ':') = false := beq_eq_false_iff_ne.mpr hcolon
    constructor
    · unfold seconds_to_time
      rw [data_mk, hdd, heq]
      simp only [List.cons_append]
      rw [dropWhile_ne_head _ c hb0, dropWhile_ne_head _ c hbc]
    · rw [heq]
      simp [hz0]

/-- C1 witness: the two universal branches evaluated at 100 and 7322. -/
theorem seconds_to_time_spec_witness :
    ((100 : Nat) < 3600 ∧
      (seconds_to_time 100).data = pad2 (100 / 60) ++ ':' :: pad2 (100 % 60)) ∧
    ((3600 : Nat) ≤ 7322 ∧ (seconds_to_time 7322).data =
      natToChars (7322 / 3600) ++ ':' :: (pad2 (7322 / 60 % 60) ++ ':' :: pad2 (7322 % 60))) :=
  ⟨⟨by decide, ((seconds_to_time_spec 100).1 (by decide)).1⟩,
   ⟨by decide, ((seconds_to_time_spec 7322).2.1 (by decide)).1⟩⟩

/-- C1 counterexample: the claimed examples `171 ↦ "2:51"` and `0 ↦ "0:00"`
are false — the code keeps the zero-padding of the minute field and only
strips the zero hour digit and its separator. -/
theorem seconds_to_time_counterexample :
    seconds_to_time 171 = "02:51" ∧ seconds_to_time 171 ≠ "2:51" ∧
    seconds_to_time 0 = "00:00" ∧ seconds_to_time 0 ≠ "0:00" := by decide

/-! ### C4: the DataParser -/

theorem partitionSpace_no_space : ∀ l : List Char, (∀ c ∈ l, c ≠ ' ') →
    partitionSpace l = (l, []) := by
  intro l
  induction l with
  | nil => intro _; rfl
  | cons c rest ih =>
    intro h
    have hc := h c (List.mem_cons_self c rest)
    simp only [partitionSpace, if_neg hc]
    rw [ih (fun x hx => h x (List.mem_cons_of_mem c hx))]

/-- C4: `_organize_data` splits each line on the first space (splitting the
remainder once more under a `set`/`tag` category), and the resulting mapping
has exactly one entry per distinct key, with the last occurrence of a
duplicate key winning (`lastWins` over the per-line pairs); a line with no
space stores an empty value; the concrete example shows the `set`/`tag`
second split and a duplicate key. -/
theorem organize_data_spec :
    (∀ s : String, ((organize_data s).map Prod.fst).Nodup) ∧
    (∀ s q, lookupA (organize_data s) q = lastWins (linePairs s) q) ∧
    (∀ line : List Char, (∀ c ∈ line, c ≠ ' ') → (linePair line).2 = "") ∧
    organize_data "set artist Foo Bar\ntag genre Jazz\nstatus playing\nset artist Baz" =
      [("artist", "Baz"), ("genre", "Jazz"), ("status", "playing")] := by
  refine ⟨?_, ?_, ?_, by decide⟩
  · intro s
    exact nodup_keys_foldl (linePairs s) [] (by simp)
  · intro s q
    unfold organize_data
    rw [lookupA_foldl_dictInsert]
    exact orElseO_none_right _
  · intro line h
    unfold linePair
    rw [partitionSpace_no_space line h]
    split <;> rfl

/-- C4 witness: the no-space edge case evaluated on a concrete line. -/
theorem organize_data_spec_witness : (linePair "noSpace".data).2 = "" :=
  organize_data_spec.2.2.1 "noSpace".data (by decide)

/-! ### C8: the startup precondition -/

/-- C8: `post_config_hook` raises `STRING_NOT_INSTALLED` exactly when
`cmus-remote` is not found on the search path, and otherwise completes,
resolving the colours and the `use_follow` flag. -/
theorem post_config_hook_spec : ∀ (cfg : Config) (env : Env),
    (env.check_cmus_remote = false →
      post_config_hook cfg env = Except.error STRING_NOT_INSTALLED) ∧
    (env.check_cmus_remote = true → ∃ st, post_config_hook cfg env = Except.ok st ∧
      st.use_follow = computeUseFollow cfg.format ∧
      st.color_stopped = pyOr env.COLOR_STOPPED env.COLOR_BAD ∧
      st.color_paused = pyOr env.COLOR_PAUSED env.COLOR_DEGRADED ∧
      st.color_playing = pyOr env.COLOR_PLAYING env.COLOR_GOOD) := by
  intro cfg env
  constructor
  · intro h
    unfold post_config_hook
    rw [if_pos h]
  · intro h
    unfold post_config_hook
    rw [if_neg (by rw [h]; simp)]
    exact ⟨_, rfl, rfl, rfl, rfl, rfl⟩

/-- C8 witness: with `cmus-remote` missing, initialization aborts with the
source's exception message. -/
theorem post_config_hook_spec_witness :
    post_config_hook defaultConfig envNoCmus = Except.error STRING_NOT_INSTALLED :=
  (post_config_hook_spec defaultConfig envNoCmus).1 rfl

/-! ### C6: the ClickDispatcher -/

/-- C6: `on_click` is a first-match lookup in the fixed priority table
pause, stop, next, previous, repeat, shuffle, seek-backward, seek-forward,
volume-down, volume-up: on the first binding equal to the clicked button it
runs exactly that one command without suppressing the refresh, on no match
it runs nothing and suppresses the refresh; it never issues the query
command. -/
theorem on_click_spec : ∀ (st : ConfigState) (b : Int),
    (on_click st b =
      match (clickTable st).find? (fun p => p.1 == some b) with
      | some p => ([p.2], false)
      | Option.none => ([], true)) ∧
    "cmus-remote --query" ∉ (on_click st b).1 := by
  intro st b
  have hmain : on_click st b =
      match (clickTable st).find? (fun p => p.1 == some b) with
      | some p => ([p.2], false)
      | Option.none => ([], true) := by
    unfold on_click clickTable
    cases h1 : st.button_pause == some b with
    | true => simp [List.find?, h1]
    | false =>
    cases h2 : st.button_stop == some b with
    | true => simp [List.find?, h1, h2]
    | false =>
    cases h3 : st.button_next == some b with
    | true => simp [List.find?, h1, h2, h3]
    | false =>
    cases h4 : st.button_previous == some b with
    | true => simp [List.find?, h1, h2, h3, h4]
    | false =>
    cases h5 : st.button_repeat == some b with
    | true => simp [List.find?, h1, h2, h3, h4, h5]
    | false =>
    cases h6 : st.button_shuffle == some b with
    | true => simp [List.find?, h1, h2, h3, h4, h5, h6]
    | false =>
    cases h7 : st.button_seek_backward == some b with
    | true => simp [List.find?, h1, h2, h3, h4, h5, h6, h7]
    | false =>
    cases h8 : st.button_seek_forward == some b with
    | true => simp [List.find?, h1, h2, h3, h4, h5, h6, h7, h8]
    | false =>
    cases h9 : st.button_volume_down == some b with
    | true => simp [List.find?, h1, h2, h3, h4, h5, h6, h7, h8, h9]
    | false =>
    cases h10 : st.button_volume_up == some b with
    | true => simp [List.find?, h1, h2, h3, h4, h5, h6, h7, h8, h9, h10]
    | false => simp [List.find?, h1, h2, h3, h4, h5, h6, h7, h8, h9, h10]
  refine ⟨hmain, ?_⟩
  rw [hmain]
  rcases hf : (clickTable st).find? (fun p => p.1 == some b) with _ | p
  · rw [hf]
    simp
  · rw [hf]
    have hp := List.mem_of_find?_eq_some hf
    simp only [clickTable, List.mem_cons, List.not_mem_nil, or_false] at hp
    rcases hp with rfl | rfl | rfl | rfl | rfl | rfl | rfl | rfl | rfl | rfl <;> simp

/-! ### C7: the out-of-band follow query -/

/-- C7: the `use_follow` flag is exactly the disjunction of the three
literal substring tests on the format; when the flag is set a successful
transformation issues exactly the one raw `set follow` query and stores
under `follow` the boolean of whether `true` occurs in the response; when
the flag is unset no raw query is issued. -/
theorem follow_spec :
    (∀ f : String, computeUseFollow f =
      (containsSub "if=follow" f || containsSub "if=!follow" f || containsSub "{follow}" f)) ∧
    (∀ (out : String) (data : List (String × String)) t qs,
      manipulate_data true (some out) data = Except.ok (t, qs) →
      qs = [rawFollowCmd] ∧ lookupA t "follow" = some (PyVal.bool (containsSub "true" out))) ∧
    (∀ (fo : Option String) (data : List (String × String)) t qs,
      manipulate_data false fo data = Except.ok (t, qs) → qs = []) := by
  refine ⟨?_, ?_, ?_⟩
  · intro f
    unfold computeUseFollow format_contains
    simp only [List.foldl_cons, List.foldl_nil]
    cases h1 : containsSub "if=follow" f <;> cases h2 : containsSub "if=!follow" f <;>
      cases h3 : containsSub "{follow}" f <;> simp [h1, h2, h3]
  · intro out data t qs h
    cases hl : manipulateLoop data [] with
    | error e =>
      unfold manipulate_data at h
      rw [hl] at h
      exact Except.noConfusion h
    | ok t0 =>
      unfold manipulate_data at h
      rw [hl] at h
      have h2 : (if containsSub "true" out then
          Except.ok (dictInsert (streamPost data t0) "follow" (PyVal.bool true), [rawFollowCmd])
        else
          Except.ok (dictInsert (streamPost data t0) "follow" (PyVal.bool false), [rawFollowCmd]))
          = Except.ok ((t, qs) :
            List (String × PyVal) × List (List String)) := h
      by_cases hc : containsSub "true" out = true
      · rw [if_pos hc, Except.ok.injEq, Prod.mk.injEq] at h2
        obtain ⟨ht, hqs⟩ := h2
        subst ht
        subst hqs
        refine ⟨rfl, ?_⟩
        rw [lookupA_dictInsert, if_pos rfl, hc]
      · have hcf : containsSub "true" out = false := by
          cases hcc : containsSub "true" out
          · rfl
          · exact absurd hcc hc
        rw [if_neg (by rw [hcf]; simp), Except.ok.injEq, Prod.mk.injEq] at h2
        obtain ⟨ht, hqs⟩ := h2
        subst ht
        subst hqs
        refine ⟨rfl, ?_⟩
        rw [lookupA_dictInsert, if_pos rfl, hcf]
  · intro fo data t qs h
    cases hl : manipulateLoop data [] with
    | error e =>
      unfold manipulate_data at h
      rw [hl] at h
      exact Except.noConfusion h
    | ok t0 =>
      unfold manipulate_data at h
      rw [hl] at h
      have h2 : Except.ok ((streamPost data t0, ([] : List (List String))) :
          List (String × PyVal) × List (List String)) = Except.ok (t, qs) := h
      rw [Except.ok.injEq, Prod.mk.injEq] at h2
      exact h2.2.symm

/-- C7 witness: a transformation with the flag set, on an empty snapshot and
a response containing `true`. -/
theorem follow_spec_witness :
    manipulate_data true (some "set follow true\x0A") [] =
      Except.ok ([("follow", PyVal.bool true)], [rawFollowCmd]) ∧
    ([rawFollowCmd] = [rawFollowCmd] ∧
      lookupA [("follow", PyVal.bool true)] "follow" =
        some (PyVal.bool (containsSub "true" "set follow true\x0A"))) :=
  ⟨by decide,
   follow_spec.2.1 "set follow true\x0A" [] [("follow", PyVal.bool true)] [rawFollowCmd]
     (by decide)⟩

/-! ### C3: the DataTransformer -/

theorem lastWins_nil {α : Type} (q : String) : lastWins ([] : List (String × α)) q = Option.none :=
  rfl

theorem manipulateEntry_ok (t : List (String × PyVal)) (kv : String × String)
    (t1 : List (String × PyVal)) (h : manipulateEntry t kv = Except.ok t1) :
    t1 = (entryWrites kv).foldl (fun d p => dictInsert d p.1 p.2) t := by
  unfold manipulateEntry at h
  unfold entryWrites
  by_cases hdp : kv.1 = "duration" ∨ kv.1 = "position"
  · rw [if_pos hdp] at h
    rw [if_pos hdp]
    cases hpy : pyInt kv.2 with
    | none => rw [hpy] at h; exact Except.noConfusion h
    | some n =>
      rw [hpy] at h
      rw [Except.ok.injEq] at h
      subst h
      rfl
  · rw [if_neg hdp] at h
    rw [if_neg hdp]
    by_cases ht : kv.2 = "true" ∨ kv.2 = "enabled"
    · rw [if_pos ht] at h
      rw [if_pos ht, Except.ok.injEq] at *
      subst h
      rfl
    · rw [if_neg ht] at h
      rw [if_neg ht]
      by_cases hf : kv.2 = "false" ∨ kv.2 = "disabled"
      · rw [if_pos hf] at h
        rw [if_pos hf, Except.ok.injEq] at *
        subst h
        rfl
      · rw [if_neg hf] at h
        rw [if_neg hf, Except.ok.injEq] at *
        subst h
        rfl

theorem manipulateLoop_lookup : ∀ (data : List (String × String)) (t0 t1 : List (String × PyVal)),
    manipulateLoop data t0 = Except.ok t1 → ∀ q,
      lookupA t1 q = orElseO (lastWins (flatWrites data) q) (lookupA t0 q) := by
  intro data
  induction data with
  | nil =>
    intro t0 t1 h q
    have h2 : t0 = t1 := by
      unfold manipulateLoop at h
      rw [Except.ok.injEq] at h
      exact h
    subst h2
    rfl
  | cons kv rest ih =>
    intro t0 t1 h q
    unfold manipulateLoop at h
    cases he : manipulateEntry t0 kv with
    | error e => rw [he] at h; exact Except.noConfusion h
    | ok tm =>
      rw [he] at h
      have htm := manipulateEntry_ok t0 kv tm he
      have hrest := ih tm t1 h q
      rw [hrest, htm, lookupA_foldl_dictInsert]
      simp only [flatWrites]
      rw [lastWins_append, orElseO_assoc]

theorem manipulateLoop_total : ∀ (data : List (String × String)) (t0 : List (String × PyVal)),
    (∀ k v, (k, v) ∈ data → (k = "duration" ∨ k = "position") → (pyInt v).isSome = true) →
    ∃ t1, manipulateLoop data t0 = Except.ok t1 := by
  intro data
  induction data with
  | nil => intro t0 _; exact ⟨t0, rfl⟩
  | cons kv rest ih =>
    intro t0 h
    have hentry : ∃ tm, manipulateEntry t0 kv = Except.ok tm := by
      unfold manipulateEntry
      by_cases hdp : kv.1 = "duration" ∨ kv.1 = "position"
      · rw [if_pos hdp]
        have hs := h kv.1 kv.2 (List.mem_cons_self kv rest) hdp
        cases hpy : pyInt kv.2 with
        | none => rw [hpy] at hs; exact absurd hs (by simp)
        | some n => exact ⟨_, rfl⟩
      · rw [if_neg hdp]
        by_cases ht : kv.2 = "true" ∨ kv.2 = "enabled"
        · rw [if_pos ht]; exact ⟨_, rfl⟩
        · rw [if_neg ht]
          by_cases hf : kv.2 = "false" ∨ kv.2 = "disabled"
          · rw [if_pos hf]; exact ⟨_, rfl⟩
          · rw [if_neg hf]; exact ⟨_, rfl⟩
    obtain ⟨tm, hm⟩ := hentry
    obtain ⟨t1, h1⟩ := ih tm (fun k v hkv => h k v (List.mem_cons_of_mem kv hkv))
    refine ⟨t1, ?_⟩
    unfold manipulateLoop
    rw [hm]
    exact h1

theorem flatWrites_keys : ∀ (data : List (String × String)) (p : String × PyVal),
    p ∈ flatWrites data →
      p.1 ∈ data.map Prod.fst ∨
      (p.1 = "durationtime" ∧ "duration" ∈ data.map Prod.fst) ∨
      (p.1 = "positiontime" ∧ "position" ∈ data.map Prod.fst) := by
  intro data
  induction data with
  | nil => intro p hp; exact absurd hp (List.not_mem_nil p)
  | cons kv rest ih =>
    intro p hp
    have hp2 : p ∈ entryWrites kv ++ flatWrites rest := hp
    rcases List.mem_append.mp hp2 with hl | hr
    · unfold entryWrites at hl
      by_cases hdp : kv.1 = "duration" ∨ kv.1 = "position"
      · rw [if_pos hdp] at hl
        rcases List.mem_cons.mp hl with h1 | hl2
        · subst h1
          rcases hdp with hd | hp3
          · right; left
            refine ⟨by rw [hd]; rfl, ?_⟩
            simp [List.map_cons, List.mem_cons, hd]
          · right; right
            refine ⟨by rw [hp3]; rfl, ?_⟩
            simp [List.map_cons, List.mem_cons, hp3]
        · rcases List.mem_singleton.mp hl2 with rfl
          left
          simp [List.map_cons]
      · rw [if_neg hdp] at hl
        have hfst : p.1 = kv.1 := by
          split at hl
          · rcases List.mem_singleton.mp hl with rfl; rfl
          · split at hl
            · rcases List.mem_singleton.mp hl with rfl; rfl
            · rcases List.mem_singleton.mp hl with rfl; rfl
        left
        rw [hfst]
        simp [List.map_cons]
    · rcases ih p hr with h | ⟨h1, h2⟩ | ⟨h1, h2⟩
      · left
        simp only [List.map_cons, List.mem_cons]
        right
        exact h
      · right; left
        refine ⟨h1, ?_⟩
        simp only [List.map_cons, List.mem_cons]
        right
        exact h2
      · right; right
        refine ⟨h1, ?_⟩
        simp only [List.map_cons, List.mem_cons]
        right
        exact h2

theorem lastWins_entryWrites_self (kv : String × String) :
    lastWins (entryWrites kv) kv.1 = some (mainVal kv.1 kv.2) := by
  unfold entryWrites mainVal
  by_cases hdp : kv.1 = "duration" ∨ kv.1 = "position"
  · rw [if_pos hdp, if_pos hdp]
    have hne : kv.1 ++ "time" ≠ kv.1 := by
      rcases hdp with h | h <;> rw [h] <;> decide
    rw [lastWins_cons, lastWins_cons, lastWins_nil]
    simp [hne, orElseO]
  · rw [if_neg hdp, if_neg hdp]
    split_ifs <;> (rw [lastWins_cons, lastWins_nil] ; simp [orElseO])

theorem lastWins_entryWrites_time (kv : String × String)
    (hdp : kv.1 = "duration" ∨ kv.1 = "position") :
    lastWins (entryWrites kv) (kv.1 ++ "time") =
      some (PyVal.str (seconds_to_time ((pyInt kv.2).getD 0))) := by
  unfold entryWrites
  rw [if_pos hdp]
  have hne : kv.1 ≠ kv.1 ++ "time" := by
    rcases hdp with h | h <;> rw [h] <;> decide
  rw [lastWins_cons, lastWins_cons, lastWins_nil]
  simp [hne, orElseO]

theorem c3_core : ∀ (data : List (String × String)),
    ((data.map Prod.fst).Nodup) →
    "durationtime" ∉ data.map Prod.fst →
    "positiontime" ∉ data.map Prod.fst →
    ∀ k v, (k, v) ∈ data →
      lastWins (flatWrites data) k = some (mainVal k v) ∧
      ((k = "duration" ∨ k = "position") →
        lastWins (flatWrites data) (k ++ "time") =
          some (PyVal.str (seconds_to_time ((pyInt v).getD 0)))) := by
  intro data
  induction data with
  | nil => intro _ _ _ k v hm; exact absurd hm (List.not_mem_nil _)
  | cons kv rest ih =>
    intro hnd hdt hpt k v hm
    have hnd2 : (rest.map Prod.fst).Nodup := by
      simp only [List.map_cons, List.nodup_cons] at hnd
      exact hnd.2
    have hknotin : kv.1 ∉ rest.map Prod.fst := by
      simp only [List.map_cons, List.nodup_cons] at hnd
      exact hnd.1
    have hdt2 : "durationtime" ∉ rest.map Prod.fst := by
      simp only [List.map_cons, List.mem_cons] at hdt
      exact fun hc => hdt (Or.inr hc)
    have hpt2 : "positiontime" ∉ rest.map Prod.fst := by
      simp only [List.map_cons, List.mem_cons] at hpt
      exact fun hc => hpt (Or.inr hc)
    have hdtne : "durationtime" ≠ kv.1 := by
      simp only [List.map_cons, List.mem_cons] at hdt
      exact fun hc => hdt (Or.inl hc)
    have hptne : "positiontime" ≠ kv.1 := by
      simp only [List.map_cons, List.mem_cons] at hpt
      exact fun hc => hpt (Or.inl hc)
    have hflat : flatWrites (kv :: rest) = entryWrites kv ++ flatWrites rest := rfl
    rcases List.mem_cons.mp hm with heq | hmem
    · have hk : k = kv.1 := congrArg Prod.fst heq
      have hv : v = kv.2 := congrArg Prod.snd heq
      subst hk
      subst hv
      have hrest_none : lastWins (flatWrites rest) kv.1 = Option.none := by
        apply lastWins_eq_none
        intro p hp
        rcases flatWrites_keys rest p hp with h | ⟨h1, _⟩ | ⟨h1, _⟩
        · intro hc; rw [hc] at h; exact hknotin h
        · intro hc; rw [h1] at hc; exact hdtne hc
        · intro hc; rw [h1] at hc; exact hptne hc
      constructor
      · rw [hflat, lastWins_append, hrest_none]
        simp only [orElseO]
        exact lastWins_entryWrites_self kv
      · intro hdp
        have htime_ne : ∀ p ∈ flatWrites rest, p.1 ≠ kv.1 ++ "time" := by
          intro p hp
          rcases flatWrites_keys rest p hp with h | ⟨h1, h2⟩ | ⟨h1, h2⟩
          · intro hc
            rw [hc] at h
            rcases hdp with hd | hp3
            · rw [hd] at h; exact hdt2 h
            · rw [hp3] at h; exact hpt2 h
          · intro hc
            rcases hdp with hd | hp3
            · rw [hd] at hknotin; exact hknotin h2
            · rw [h1, hp3] at hc; exact absurd hc (by decide)
          · intro hc
            rcases hdp with hd | hp3
            · rw [h1, hd] at hc; exact absurd hc (by decide)
            · rw [hp3] at hknotin; exact hknotin h2
        have hrest_none2 : lastWins (flatWrites rest) (kv.1 ++ "time") = Option.none :=
          lastWins_eq_none _ _ htime_ne
        rw [hflat, lastWins_append, hrest_none2]
        simp only [orElseO]
        exact lastWins_entryWrites_time kv hdp
    · have hres := ih hnd2 hdt2 hpt2 k v hmem
      constructor
      · rw [hflat, lastWins_append, hres.1]
        rfl
      · intro hdp
        rw [hflat, lastWins_append, hres.2 hdp]
        rfl

theorem manipulate_ok_shape (uf : Bool) (fo : Option String) (data : List (String × String))
    (t : List (String × PyVal)) (qs : List (List String))
    (h : manipulate_data uf fo data = Except.ok (t, qs)) :
    ∃ t0, manipulateLoop data [] = Except.ok t0 ∧
      ((uf = false ∧ t = streamPost data t0 ∧ qs = []) ∨
       (uf = true ∧ ∃ out, fo = some out ∧
         t = dictInsert (streamPost data t0) "follow" (PyVal.bool (containsSub "true" out)) ∧
         qs = [rawFollowCmd])) := by
  cases hl : manipulateLoop data [] with
  | error e =>
    unfold manipulate_data at h
    rw [hl] at h
    exact Except.noConfusion h
  | ok t0 =>
    unfold manipulate_data at h
    rw [hl] at h
    refine ⟨t0, rfl, ?_⟩
    cases uf with
    | false =>
      have h2 : Except.ok ((streamPost data t0, ([] : List (List String))) :
          List (String × PyVal) × List (List String)) = Except.ok (t, qs) := h
      rw [Except.ok.injEq, Prod.mk.injEq] at h2
      exact Or.inl ⟨rfl, h2.1.symm, h2.2.symm⟩
    | true =>
      cases fo with
      | none =>
        have h2 : (Except.error PyErr.commandError :
            Except PyErr (List (String × PyVal) × List (List String))) = Except.ok (t, qs) := h
        exact Except.noConfusion h2
      | some out =>
        have h2 : (if containsSub "true" out then
            Except.ok (dictInsert (streamPost data t0) "follow" (PyVal.bool true), [rawFollowCmd])
          else
            Except.ok (dictInsert (streamPost data t0) "follow" (PyVal.bool false),
              [rawFollowCmd])) =
            Except.ok ((t, qs) : List (String × PyVal) × List (List String)) := h
        refine Or.inr ⟨rfl, out, rfl, ?_⟩
        by_cases hc : containsSub "true" out = true
        · rw [if_pos hc, Except.ok.injEq, Prod.mk.injEq] at h2
          rw [hc]
          exact ⟨h2.1.symm, h2.2.symm⟩
        · have hcf : containsSub "true" out = false := by
            cases hcc : containsSub "true" out
            · rfl
            · exact absurd hcc hc
          rw [if_neg (by rw [hcf]; simp), Except.ok.injEq, Prod.mk.injEq] at h2
          rw [hcf]
          exact ⟨h2.1.symm, h2.2.symm⟩

/-- C3 (amended): on a snapshot mapping with distinct keys, none of them
`durationtime`/`positiontime`, a successful transformation maps each value
exactly equal to `true`/`enabled` to boolean true and `false`/`disabled` to
boolean false and passes all other string values through, except that
`duration`/`position` are retained unmodified while adding the derived
`<key>time` entry, a present `stream` key is forced to boolean true, and —
when the follow flag is set — the `follow` key is overwritten with the
boolean result of the out-of-band query; the transformation succeeds on the
mappings whose `duration`/`position` values are integer literals, and on a
non-literal value it raises `ValueError` instead of producing a mapping. -/
theorem manipulate_data_spec :
    (∀ (uf : Bool) (fo : Option String) (data : List (String × String)) t qs k v,
      ((data.map Prod.fst).Nodup) →
      "durationtime" ∉ data.map Prod.fst →
      "positiontime" ∉ data.map Prod.fst →
      (k, v) ∈ data →
      manipulate_data uf fo data = Except.ok (t, qs) →
      (k ≠ "stream" → k ≠ "follow" → lookupA t k = some (mainVal k v)) ∧
      (uf = false → k ≠ "stream" → lookupA t k = some (mainVal k v)) ∧
      ((k = "duration" ∨ k = "position") → lookupA t k = some (PyVal.str v) ∧
        lookupA t (k ++ "time") = some (PyVal.str (seconds_to_time ((pyInt v).getD 0)))) ∧
      (k = "stream" → lookupA t "stream" = some (PyVal.bool true)) ∧
      (∀ out, uf = true → fo = some out →
        lookupA t "follow" = some (PyVal.bool (containsSub "true" out))) ∧
      (uf = false → qs = [])) ∧
    (∀ (uf : Bool) (fo : Option String) (data : List (String × String)),
      (∀ k v, (k, v) ∈ data → (k = "duration" ∨ k = "position") → (pyInt v).isSome = true) →
      (uf = true → fo.isSome = true) →
      ∃ t qs, manipulate_data uf fo data = Except.ok (t, qs)) := by
  constructor
  · intro uf fo data t qs k v hnd hdt hpt hm h
    obtain ⟨t0, hl, hshape⟩ := manipulate_ok_shape uf fo data t qs h
    have hcore := c3_core data hnd hdt hpt k v hm
    have hq : ∀ q, lookupA t0 q = lastWins (flatWrites data) q := by
      intro q
      rw [manipulateLoop_lookup data [] t0 hl q]
      exact orElseO_none_right _
    have hsp_ne : ∀ q, q ≠ "stream" → lookupA (streamPost data t0) q = lookupA t0 q := by
      intro q hqs2
      unfold streamPost
      split
      · rw [lookupA_dictInsert, if_neg (fun hc => hqs2 hc.symm)]
      · rfl
    have hlkgen : ∀ q, q ≠ "stream" → q ≠ "follow" → lookupA t q = lookupA t0 q := by
      intro q hqs2 hqf
      rcases hshape with ⟨_, ht, _⟩ | ⟨_, out, _, ht, _⟩
      · subst ht
        exact hsp_ne q hqs2
      · subst ht
        rw [lookupA_dictInsert, if_neg (fun hc => hqf hc.symm)]
        exact hsp_ne q hqs2
    refine ⟨?_, ?_, ?_, ?_, ?_, ?_⟩
    · intro hks hkf
      rw [hlkgen k hks hkf, hq k, hcore.1]
    · intro huf hks
      rcases hshape with ⟨_, ht, _⟩ | ⟨huf2, _⟩
      · subst ht
        rw [hsp_ne k hks, hq k, hcore.1]
      · rw [huf] at huf2
        exact Bool.noConfusion huf2
    · intro hdp
      have hks : k ≠ "stream" := by rcases hdp with h3 | h3 <;> rw [h3] <;> decide
      have hkf : k ≠ "follow" := by rcases hdp with h3 | h3 <;> rw [h3] <;> decide
      have hts : k ++ "time" ≠ "stream" := by rcases hdp with h3 | h3 <;> rw [h3] <;> decide
      have htf : k ++ "time" ≠ "follow" := by rcases hdp with h3 | h3 <;> rw [h3] <;> decide
      constructor
      · rw [hlkgen k hks hkf, hq k, hcore.1]
        unfold mainVal
        rw [if_pos hdp]
      · rw [hlkgen (k ++ "time") hts htf, hq (k ++ "time"), hcore.2 hdp]
    · intro hks
      subst hks
      have hany : data.any (fun p => p.1 == "stream") = true :=
        List.any_eq_true.mpr ⟨("stream", v), hm, by simp⟩
      have hsp : lookupA (streamPost data t0) "stream" = some (PyVal.bool true) := by
        unfold streamPost
        rw [if_pos hany, lookupA_dictInsert, if_pos rfl]
      rcases hshape with ⟨_, ht, _⟩ | ⟨_, out, _, ht, _⟩
      · subst ht
        exact hsp
      · subst ht
        rw [lookupA_dictInsert, if_neg (by decide)]
        exact hsp
    · intro out huf hfo
      rcases hshape with ⟨huf2, _⟩ | ⟨_, out2, hfo2, ht, _⟩
      · rw [huf] at huf2
        exact Bool.noConfusion huf2
      · rw [hfo] at hfo2
        have hout : out = out2 := Option.some.inj hfo2
        subst hout
        subst ht
        rw [lookupA_dictInsert, if_pos rfl]
    · intro huf
      rcases hshape with ⟨_, _, hqs⟩ | ⟨huf2, _⟩
      · exact hqs
      · rw [huf] at huf2
        exact Bool.noConfusion huf2
  · intro uf fo data hdig hfo
    obtain ⟨t0, hl⟩ := manipulateLoop_total data [] hdig
    cases uf with
    | false =>
      refine ⟨streamPost data t0, [], ?_⟩
      unfold manipulate_data
      rw [hl]
      rfl
    | true =>
      cases hfo2 : fo with
      | none =>
        rw [hfo2] at hfo
        exact absurd (hfo rfl) (by decide)
      | some out =>
        refine ⟨dictInsert (streamPost data t0) "follow" (PyVal.bool (containsSub "true" out)),
          [rawFollowCmd], ?_⟩
        unfold manipulate_data
        rw [hl]
        show (if containsSub "true" out then
            Except.ok (dictInsert (streamPost data t0) "follow" (PyVal.bool true), [rawFollowCmd])
          else
            Except.ok (dictInsert (streamPost data t0) "follow" (PyVal.bool false),
              [rawFollowCmd])) = _
        by_cases hc : containsSub "true" out = true
        · rw [hc]
          rfl
        · have hcf : containsSub "true" out = false := by
            cases hcc : containsSub "true" out
            · rfl
            · exact absurd hcc hc
          rw [hcf]
          rfl

/-- C3 counterexample: three divergences from the claim at explicit inputs —
on `{duration: "x"}` the transformer raises `ValueError` (from `int("x")`)
instead of producing any mapping; on `{durationtime: "q", duration: "171"}`
the input value of `durationtime` is NOT passed through unchanged (the
derived entry of `duration` overwrites it with `"02:51"`); and with the
follow flag set, a `follow` key whose value is the non-token string `"abc"`
is NOT passed through (the out-of-band query result overwrites it with
boolean true). -/
theorem manipulate_data_counterexample :
    manipulate_data false Option.none [("duration", "x")] = Except.error PyErr.valueError ∧
    manipulate_data false Option.none [("durationtime", "q"), ("duration", "171")] =
      Except.ok ([("durationtime", PyVal.str "02:51"), ("duration", PyVal.str "171")], []) ∧
    lookupA [("durationtime", PyVal.str "02:51"), ("duration", PyVal.str "171")]
      "durationtime" ≠ some (PyVal.str "q") ∧
    manipulate_data true (some "x true x") [("follow", "abc")] =
      Except.ok ([("follow", PyVal.bool true)], [rawFollowCmd]) ∧
    lookupA [("follow", PyVal.bool true)] "follow" ≠ some (PyVal.str "abc") := by decide

/-- C3 witness: the amended theorem evaluated on a concrete snapshot with a
token value, a duration, and a stream key, with the follow flag unset
(`tW`) and set (`tWF`). -/
theorem manipulate_data_spec_witness :
    lookupA tW "shuffle" = some (PyVal.bool true) ∧
    lookupA tW "durationtime" = some (PyVal.str "02:51") ∧
    lookupA tW "stream" = some (PyVal.bool true) ∧
    lookupA tWF "follow" = some (PyVal.bool (containsSub "true" "true")) ∧
    lookupA tWF "shuffle" = some (PyVal.bool true) := by
  have h1 := manipulate_data_spec.1 false Option.none dataW tW [] "shuffle" "enabled"
    (by decide) (by decide) (by decide) (by decide) (by decide)
  have h2 := manipulate_data_spec.1 false Option.none dataW tW [] "duration" "171"
    (by decide) (by decide) (by decide) (by decide) (by decide)
  have h3 := manipulate_data_spec.1 false Option.none dataW tW [] "stream" "x"
    (by decide) (by decide) (by decide) (by decide) (by decide)
  have h4 := manipulate_data_spec.1 true (some "true") dataW tWF [rawFollowCmd]
    "shuffle" "enabled" (by decide) (by decide) (by decide) (by decide) (by decide)
  refine ⟨?_, ?_, ?_, ?_, ?_⟩
  · exact h1.2.1 rfl (by decide)
  · exact (h2.2.2.1 (Or.inl rfl)).2
  · exact h3.2.2.2.1 rfl
  · exact h4.2.2.2.2.1 "true" rfl rfl
  · exact h4.1 (by decide) (by decide)

/-! ### The render entry point: C2, C5, C9, C10 -/

theorem lookupA_bind_paused (a b c d : PyVal) (rest : List (String × PyVal)) :
    lookupA (fourBools a b c d ++ rest) "is_paused" = some a := rfl

theorem lookupA_bind_playing (a b c d : PyVal) (rest : List (String × PyVal)) :
    lookupA (fourBools a b c d ++ rest) "is_playing" = some b := rfl

theorem lookupA_bind_started (a b c d : PyVal) (rest : List (String × PyVal)) :
    lookupA (fourBools a b c d ++ rest) "is_started" = some c := rfl

theorem lookupA_bind_stopped (a b c d : PyVal) (rest : List (String × PyVal)) :
    lookupA (fourBools a b c d ++ rest) "is_stopped" = some d := rfl

theorem cmus_ok_cases (st : ConfigState) (env : Env) (r : RenderResult)
    (h : cmus st env = Except.ok r) :
    (env.queryOutput = Option.none ∧
      r = ⟨st.sleep_timeout, env.COLOR_BAD, st.format,
           fourBools PyVal.none PyVal.none (PyVal.bool false) PyVal.none ++ []⟩) ∨
    (∃ raw data qs, env.queryOutput = some raw ∧
      manipulate_data st.use_follow env.followOutput (organize_data raw) = Except.ok (data, qs) ∧
      data.any (fun e => reservedKeys.contains e.1) = false ∧
      r = ⟨st.cache_timeout, statusColor st env data, st.format,
           fourBools (pausedVal data) (playingVal data) (PyVal.bool true) (stoppedVal data)
             ++ data⟩) := by
  unfold cmus get_cmus_data at h
  cases hq : env.queryOutput with
  | none =>
    rw [hq] at h
    have h2 : Except.ok ((⟨st.sleep_timeout, env.COLOR_BAD, st.format,
        fourBools PyVal.none PyVal.none (PyVal.bool false) PyVal.none ++ []⟩ : RenderResult)) =
        Except.ok r := h
    rw [Except.ok.injEq] at h2
    left
    exact ⟨rfl, h2.symm⟩
  | some raw =>
    rw [hq] at h
    have h2 : (match manipulate_data st.use_follow env.followOutput (organize_data raw) with
      | Except.error e => Except.error e
      | Except.ok (data, _qs) =>
        match makeBindings (pausedVal data) (playingVal data) (PyVal.bool true)
            (stoppedVal data) data with
        | Except.error e => Except.error e
        | Except.ok bs =>
          Except.ok (⟨st.cache_timeout, statusColor st env data, st.format, bs⟩ :
            RenderResult)) = Except.ok r := h
    cases hm : manipulate_data st.use_follow env.followOutput (organize_data raw) with
    | error e => rw [hm] at h2; exact Except.noConfusion h2
    | ok p =>
      obtain ⟨data, qs⟩ := p
      rw [hm] at h2
      have h3 : (match makeBindings (pausedVal data) (playingVal data) (PyVal.bool true)
          (stoppedVal data) data with
        | Except.error e => Except.error e
        | Except.ok bs =>
          Except.ok (⟨st.cache_timeout, statusColor st env data, st.format, bs⟩ :
            RenderResult)) = Except.ok r := h2
      by_cases hcol : data.any (fun e => reservedKeys.contains e.1) = true
      · unfold makeBindings at h3
        rw [if_pos hcol] at h3
        exact Except.noConfusion h3
      · have hcolf : data.any (fun e => reservedKeys.contains e.1) = false := by
          cases hcc : data.any (fun e => reservedKeys.contains e.1)
          · rfl
          · exact absurd hcc hcol
        unfold makeBindings at h3
        rw [if_neg (by rw [hcolf]; simp)] at h3
        have h4 : Except.ok (⟨st.cache_timeout, statusColor st env data, st.format,
            fourBools (pausedVal data) (playingVal data) (PyVal.bool true) (stoppedVal data)
              ++ data⟩ : RenderResult) = Except.ok r := h3
        rw [Except.ok.injEq] at h4
        right
        exact ⟨raw, data, qs, rfl, hm, hcolf, h4.symm⟩

/-- C5: when the query subprocess raises, no error propagates: the fetch
folds the failure into `(started=false, empty)`, and `cmus` returns a result
with the sleep interval as expiry, the bad default colour, and exactly the
four boolean bindings (`is_started=False`, the others `None`) with no
snapshot fields. -/
theorem cmus_failure_spec : ∀ (st : ConfigState) (env : Env),
    env.queryOutput = Option.none →
    get_cmus_data env = (false, "") ∧
    cmus st env = Except.ok ⟨st.sleep_timeout, env.COLOR_BAD, st.format,
      fourBools PyVal.none PyVal.none (PyVal.bool false) PyVal.none⟩ := by
  intro st env hq
  constructor
  · unfold get_cmus_data
    rw [hq]
  · unfold cmus get_cmus_data
    rw [hq]
    rfl

/-- C5 witness: the concrete not-running environment. -/
theorem cmus_failure_spec_witness :
    get_cmus_data envDown = (false, "") ∧ cmus stA envDown = Except.ok rDown := by
  have h := cmus_failure_spec stA envDown rfl
  refine ⟨h.1, ?_⟩
  rw [h.2]
  decide

/-- C2 (amended): on a successful render, when the query fails the colour is
the bad default with the sleep expiry and `is_started=False`; when the query
succeeds the expiry is the active interval, `is_started=True`, and if
`status` is `playing`/`paused`/`stopped` exactly the matching boolean is set
with the matching configured-or-default colour, while a missing or
unrecognized status leaves all three booleans `None` and the colour at the
bad default; `post_config_hook` resolves the three colours as override-or-
default. -/
theorem cmus_state_spec :
    (∀ (st : ConfigState) (env : Env) (r : RenderResult),
      cmus st env = Except.ok r → env.queryOutput = Option.none →
      r.color = env.COLOR_BAD ∧ r.cached_until = st.sleep_timeout ∧
      lookupA r.bindings "is_started" = some (PyVal.bool false) ∧
      lookupA r.bindings "is_playing" = some PyVal.none ∧
      lookupA r.bindings "is_paused" = some PyVal.none ∧
      lookupA r.bindings "is_stopped" = some PyVal.none) ∧
    (∀ (st : ConfigState) (env : Env) (r : RenderResult) raw data qs,
      cmus st env = Except.ok r → env.queryOutput = some raw →
      manipulate_data st.use_follow env.followOutput (organize_data raw) = Except.ok (data, qs) →
      r.cached_until = st.cache_timeout ∧
      lookupA r.bindings "is_started" = some (PyVal.bool true) ∧
      (lookupA data "status" = some (PyVal.str "playing") →
        lookupA r.bindings "is_playing" = some (PyVal.bool true) ∧
        lookupA r.bindings "is_paused" = some PyVal.none ∧
        lookupA r.bindings "is_stopped" = some PyVal.none ∧ r.color = st.color_playing) ∧
      (lookupA data "status" = some (PyVal.str "paused") →
        lookupA r.bindings "is_paused" = some (PyVal.bool true) ∧
        lookupA r.bindings "is_playing" = some PyVal.none ∧
        lookupA r.bindings "is_stopped" = some PyVal.none ∧ r.color = st.color_paused) ∧
      (lookupA data "status" = some (PyVal.str "stopped") →
        lookupA r.bindings "is_stopped" = some (PyVal.bool true) ∧
        lookupA r.bindings "is_playing" = some PyVal.none ∧
        lookupA r.bindings "is_paused" = some PyVal.none ∧ r.color = st.color_stopped) ∧
      (lookupA data "status" ≠ some (PyVal.str "playing") →
       lookupA data "status" ≠ some (PyVal.str "paused") →
       lookupA data "status" ≠ some (PyVal.str "stopped") →
        lookupA r.bindings "is_playing" = some PyVal.none ∧
        lookupA r.bindings "is_paused" = some PyVal.none ∧
        lookupA r.bindings "is_stopped" = some PyVal.none ∧ r.color = env.COLOR_BAD)) ∧
    (∀ (cfg : Config) (env : Env) st, post_config_hook cfg env = Except.ok st →
      st.color_playing = pyOr env.COLOR_PLAYING env.COLOR_GOOD ∧
      st.color_paused = pyOr env.COLOR_PAUSED env.COLOR_DEGRADED ∧
      st.color_stopped = pyOr env.COLOR_STOPPED env.COLOR_BAD) := by
  refine ⟨?_, ?_, ?_⟩
  · intro st env r h hq
    rcases cmus_ok_cases st env r h with ⟨_, hr⟩ | ⟨raw, data, qs, hq2, _⟩
    · subst hr
      exact ⟨rfl, rfl, rfl, rfl, rfl, rfl⟩
    · rw [hq] at hq2
      exact Option.noConfusion hq2
  · intro st env r raw data qs h hq hm
    rcases cmus_ok_cases st env r h with ⟨hq2, _⟩ | ⟨raw2, data2, qs2, hq2, hm2, hcol, hr⟩
    · rw [hq] at hq2
      exact Option.noConfusion hq2
    · rw [hq] at hq2
      have hraw : raw = raw2 := Option.some.inj hq2
      subst hraw
      rw [hm] at hm2
      rw [Except.ok.injEq, Prod.mk.injEq] at hm2
      obtain ⟨hd2, hq3⟩ := hm2
      subst hd2
      subst hq3
      subst hr
      refine ⟨rfl, lookupA_bind_started _ _ _ _ data, ?_, ?_, ?_, ?_⟩
      · intro hs
        refine ⟨?_, ?_, ?_, ?_⟩
        · rw [lookupA_bind_playing]
          unfold playingVal statusOf
          rw [if_pos hs]
        · rw [lookupA_bind_paused]
          unfold pausedVal statusOf
          rw [if_neg (by rw [hs]; decide)]
        · rw [lookupA_bind_stopped]
          unfold stoppedVal statusOf
          rw [if_neg (by rw [hs]; decide)]
        · show statusColor st env data = st.color_playing
          unfold statusColor statusOf
          rw [if_pos hs]
      · intro hs
        refine ⟨?_, ?_, ?_, ?_⟩
        · rw [lookupA_bind_paused]
          unfold pausedVal statusOf
          rw [if_pos hs]
        · rw [lookupA_bind_playing]
          unfold playingVal statusOf
          rw [if_neg (by rw [hs]; decide)]
        · rw [lookupA_bind_stopped]
          unfold stoppedVal statusOf
          rw [if_neg (by rw [hs]; decide)]
        · show statusColor st env data = st.color_paused
          unfold statusColor statusOf
          rw [if_neg (by rw [hs]; decide), if_pos hs]
      · intro hs
        refine ⟨?_, ?_, ?_, ?_⟩
        · rw [lookupA_bind_stopped]
          unfold stoppedVal statusOf
          rw [if_pos hs]
        · rw [lookupA_bind_playing]
          unfold playingVal statusOf
          rw [if_neg (by rw [hs]; decide)]
        · rw [lookupA_bind_paused]
          unfold pausedVal statusOf
          rw [if_neg (by rw [hs]; decide)]
        · show statusColor st env data = st.color_stopped
          unfold statusColor statusOf
          rw [if_neg (by rw [hs]; decide), if_neg (by rw [hs]; decide), if_pos hs]
      · intro hs1 hs2 hs3
        refine ⟨?_, ?_, ?_, ?_⟩
        · rw [lookupA_bind_playing]
          unfold playingVal statusOf
          rw [if_neg hs1]
        · rw [lookupA_bind_paused]
          unfold pausedVal statusOf
          rw [if_neg hs2]
        · rw [lookupA_bind_stopped]
          unfold stoppedVal statusOf
          rw [if_neg hs3]
        · show statusColor st env data = env.COLOR_BAD
          unfold statusColor statusOf
          rw [if_neg hs1, if_neg hs2, if_neg hs3]
  · intro cfg env st h
    unfold post_config_hook at h
    by_cases hc : env.check_cmus_remote = false
    · rw [if_pos hc] at h
      exact Except.noConfusion h
    · rw [if_neg hc] at h
      rw [Except.ok.injEq] at h
      subst h
      exact ⟨rfl, rfl, rfl⟩

/-- C2 counterexample: a started snapshot whose `status` value is the
unrecognized token `garbage` renders with `is_started=True` but NONE of
`is_playing`/`is_paused`/`is_stopped` set, so the render is in none of the
four claimed states even though no failure occurred. -/
theorem cmus_state_counterexample :
    cmus stA envGarbage = Except.ok rGarbage ∧
    lookupA rGarbage.bindings "is_started" = some (PyVal.bool true) ∧
    ¬ (lookupA rGarbage.bindings "is_playing" = some (PyVal.bool true) ∨
       lookupA rGarbage.bindings "is_paused" = some (PyVal.bool true) ∨
       lookupA rGarbage.bindings "is_stopped" = some (PyVal.bool true)) ∧
    rGarbage.color = envGarbage.COLOR_BAD := by decide

/-- C2 witness: a playing snapshot renders with exactly `is_playing` set and
the playing colour. -/
theorem cmus_state_spec_witness :
    lookupA rPlaying.bindings "is_playing" = some (PyVal.bool true) ∧
    lookupA rPlaying.bindings "is_paused" = some PyVal.none ∧
    lookupA rPlaying.bindings "is_stopped" = some PyVal.none ∧
    rPlaying.color = stA.color_playing := by
  have h := cmus_state_spec.2.1 stA envPlaying rPlaying "status playing\x0Aset artist Foo"
    dataPlaying [] (by decide) rfl (by decide)
  exact h.2.2.1 (by decide)

/-- C9: every successful render is in a valid flag combination: `is_started`
is a boolean; when it is `False` the other three bindings are `None`; and at
most one of `is_playing`/`is_paused`/`is_stopped` is `True` (whenever one of
them is `True` the other two are `None`). -/
theorem cmus_flags_spec : ∀ (st : ConfigState) (env : Env) (r : RenderResult),
    cmus st env = Except.ok r →
    ((lookupA r.bindings "is_started" = some (PyVal.bool false) ∨
      lookupA r.bindings "is_started" = some (PyVal.bool true)) ∧
     (lookupA r.bindings "is_started" = some (PyVal.bool false) →
       lookupA r.bindings "is_playing" = some PyVal.none ∧
       lookupA r.bindings "is_paused" = some PyVal.none ∧
       lookupA r.bindings "is_stopped" = some PyVal.none) ∧
     (lookupA r.bindings "is_playing" = some (PyVal.bool true) →
       lookupA r.bindings "is_paused" = some PyVal.none ∧
       lookupA r.bindings "is_stopped" = some PyVal.none) ∧
     (lookupA r.bindings "is_paused" = some (PyVal.bool true) →
       lookupA r.bindings "is_playing" = some PyVal.none ∧
       lookupA r.bindings "is_stopped" = some PyVal.none) ∧
     (lookupA r.bindings "is_stopped" = some (PyVal.bool true) →
       lookupA r.bindings "is_playing" = some PyVal.none ∧
       lookupA r.bindings "is_paused" = some PyVal.none)) := by
  intro st env r h
  rcases cmus_ok_cases st env r h with ⟨_, hr⟩ | ⟨raw, data, qs, _, _, _, hr⟩
  · subst hr
    exact ⟨Or.inl rfl, fun _ => ⟨rfl, rfl, rfl⟩,
      fun hc => PyVal.noConfusion (Option.some.inj hc),
      fun hc => PyVal.noConfusion (Option.some.inj hc),
      fun hc => PyVal.noConfusion (Option.some.inj hc)⟩
  · subst hr
    refine ⟨Or.inr (lookupA_bind_started _ _ _ _ data), ?_, ?_, ?_, ?_⟩
    · intro hc
      rw [lookupA_bind_started] at hc
      exact Bool.noConfusion (PyVal.bool.inj (Option.some.inj hc))
    · intro hc
      rw [lookupA_bind_playing] at hc
      have hs : lookupA data "status" = some (PyVal.str "playing") := by
        by_cases hss : lookupA data "status" = some (PyVal.str "playing")
        · exact hss
        · exfalso
          unfold playingVal statusOf at hc
          rw [if_neg hss] at hc
          exact PyVal.noConfusion (Option.some.inj hc)
      constructor
      · rw [lookupA_bind_paused]
        unfold pausedVal statusOf
        rw [if_neg (by rw [hs]; decide)]
      · rw [lookupA_bind_stopped]
        unfold stoppedVal statusOf
        rw [if_neg (by rw [hs]; decide)]
    · intro hc
      rw [lookupA_bind_paused] at hc
      have hs : lookupA data "status" = some (PyVal.str "paused") := by
        by_cases hss : lookupA data "status" = some (PyVal.str "paused")
        · exact hss
        · exfalso
          unfold pausedVal statusOf at hc
          rw [if_neg hss] at hc
          exact PyVal.noConfusion (Option.some.inj hc)
      constructor
      · rw [lookupA_bind_playing]
        unfold playingVal statusOf
        rw [if_neg (by rw [hs]; decide)]
      · rw [lookupA_bind_stopped]
        unfold stoppedVal statusOf
        rw [if_neg (by rw [hs]; decide)]
    · intro hc
      rw [lookupA_bind_stopped] at hc
      have hs : lookupA data "status" = some (PyVal.str "stopped") := by
        by_cases hss : lookupA data "status" = some (PyVal.str "stopped")
        · exact hss
        · exfalso
          unfold stoppedVal statusOf at hc
          rw [if_neg hss] at hc
          exact PyVal.noConfusion (Option.some.inj hc)
      constructor
      · rw [lookupA_bind_playing]
        unfold playingVal statusOf
        rw [if_neg (by rw [hs]; decide)]
      · rw [lookupA_bind_paused]
        unfold pausedVal statusOf
        rw [if_neg (by rw [hs]; decide)]

/-- C9 witness: the invariant evaluated on the not-running render. -/
theorem cmus_flags_spec_witness :
    (lookupA rDown.bindings "is_started" = some (PyVal.bool false) ∨
     lookupA rDown.bindings "is_started" = some (PyVal.bool true)) := by
  have h := cmus_flags_spec stA envDown rDown (by decide)
  exact h.1

/-- C10: once the transformed snapshot is available, the render result is
produced without raising exactly when the snapshot contains none of the four
reserved keys `is_paused`/`is_playing`/`is_started`/`is_stopped`; a snapshot
holding one of them makes the `dict(...)` construction raise `TypeError`
instead. -/
theorem cmus_reserved_spec : ∀ (st : ConfigState) (env : Env) raw data qs,
    env.queryOutput = some raw →
    manipulate_data st.use_follow env.followOutput (organize_data raw) = Except.ok (data, qs) →
    (data.any (fun e => reservedKeys.contains e.1) = true →
      cmus st env = Except.error PyErr.typeError) ∧
    (data.any (fun e => reservedKeys.contains e.1) = false →
      cmus st env = Except.ok ⟨st.cache_timeout, statusColor st env data, st.format,
        fourBools (pausedVal data) (playingVal data) (PyVal.bool true) (stoppedVal data)
          ++ data⟩) := by
  intro st env raw data qs hq hm
  have hcm : cmus st env = (match makeBindings (pausedVal data) (playingVal data)
      (PyVal.bool true) (stoppedVal data) data with
    | Except.error e => Except.error e
    | Except.ok bs =>
      Except.ok (⟨st.cache_timeout, statusColor st env data, st.format, bs⟩ :
        RenderResult)) := by
    unfold cmus get_cmus_data
    rw [hq]
    show (match manipulate_data st.use_follow env.followOutput (organize_data raw) with
      | Except.error e => Except.error e
      | Except.ok (data, _qs) =>
        match makeBindings (pausedVal data) (playingVal data) (PyVal.bool true)
            (stoppedVal data) data with
        | Except.error e => Except.error e
        | Except.ok bs =>
          Except.ok (⟨st.cache_timeout, statusColor st env data, st.format, bs⟩ :
            RenderResult)) = _
    rw [hm]
  constructor
  · intro hcol
    rw [hcm]
    unfold makeBindings
    rw [if_pos hcol]
  · intro hcolf
    rw [hcm]
    unfold makeBindings
    rw [if_neg (by rw [hcolf]; simp)]

/-- C10 witness: the parsed line `set is_paused x` makes the render raise
`TypeError`. -/
theorem cmus_reserved_spec_witness : cmus stA envReserved = Except.error PyErr.typeError := by
  have h := cmus_reserved_spec stA envReserved "set is_paused x"
    [("is_paused", PyVal.str "x")] [] rfl (by decide)
  exact h.1 (by decide)
